import Mathlib

/-!
# Verification of the Smart Parking booking/payment core

Shallow embedding of the booking, wallet, availability and saved-card logic
of the University of Waikato smart-parking application, together with proofs
about the natural-language specification's claims.

Conventions used throughout:
* Timestamps are integers counting milliseconds (JavaScript `Date.getTime()`).
* Monetary amounts are integers counting cents: the database column is
  `DECIMAL(10,2)` and every dollar amount handled by the wallet code is a
  whole number of cents, so `$1` is `100`, `$0.50` is `50`.
* Database rows and client-side arrays are Lean lists of structures;
  identifier fields (UUIDs) are reduced to `Nat`.
-/

namespace SmartParking

/-- One hour in milliseconds (`1000 * 60 * 60` in the source). -/
def hourMs : Int := 3600000

/-- Booking lifecycle status, from the `booking_status` SQL enum
(`'pending', 'confirmed', 'completed', 'canceled'`). -/
inductive BookingStatus where
  | pending
  | confirmed
  | completed
  | canceled
deriving DecidableEq, Repr

/-- A row of the `bookings` table. -/
structure Booking where
  id : Nat
  userId : Nat
  spotId : Nat
  startTime : Int
  endTime : Int
  status : BookingStatus
deriving DecidableEq, Repr

/-- `status IN ('pending', 'confirmed')` — the non-terminal statuses used by
both `check_spot_availability` and `update_spot_availability`. -/
def isActiveStatus (s : BookingStatus) : Bool :=
  s == .pending || s == .confirmed

/-- The three-disjunct overlap test from `check_spot_availability`
(migration `20250801010532_floating_sound.sql`, lines 154-158):
`(start_time <= check_start AND end_time > check_start) OR
 (start_time < check_end AND end_time >= check_end) OR
 (start_time >= check_start AND end_time <= check_end)`. -/
def sqlOverlaps (b : Booking) (checkStart checkEnd : Int) : Bool :=
  (decide (b.startTime ≤ checkStart) && decide (b.endTime > checkStart)) ||
  (decide (b.startTime < checkEnd) && decide (b.endTime ≥ checkEnd)) ||
  (decide (b.startTime ≥ checkStart) && decide (b.endTime ≤ checkEnd))

/-- `check_spot_availability(spot_uuid, check_start, check_end)` from the same
migration: `NOT EXISTS` a booking for the spot with status in
`{pending, confirmed}` passing the three-disjunct overlap test. -/
def check_spot_availability (bookings : List Booking) (spotId : Nat)
    (checkStart checkEnd : Int) : Bool :=
  ! bookings.any fun b =>
      b.spotId == spotId && isActiveStatus b.status && sqlOverlaps b checkStart checkEnd

/-- The specification's standard half-open interval-overlap test:
`existing.start < end AND existing.end > start`. -/
def specOverlap (b : Booking) (s e : Int) : Prop :=
  b.startTime < e ∧ b.endTime > s

/-- Ceiling division for the timeline: `Math.ceil (a / b)` for integer inputs,
written `-((-a) / b)` so that it rounds up (Lean's `Int` division is
Euclidean, which floors for a positive divisor). -/
def ceilDiv (a b : Int) : Int :=
  -((-a) / b)

/-- `const basePrice = 1; // $1 per hour` from `calculatePrice`. -/
def basePrice : Int := 1

/-- `calculatePrice(start, end)` from the map screen, in cents:
`Math.ceil((end - start) / (1000 * 60 * 60)) * basePrice` dollars.  The
source's `toFixed(2)`/`parseFloat` round trip is the identity on the whole
dollar amounts this produces. -/
def calculatePrice (startDate endDate : Int) : Int :=
  ceilDiv (endDate - startDate) hourMs * basePrice * 100

/-- The `roundedNow` computation of `processPayment`: `now` with minutes,
seconds and milliseconds zeroed, i.e. `now` truncated down to its whole-hour
boundary. -/
def floorHour (t : Int) : Int :=
  t - t % hourMs

/-- `getNextHour()` from the map screen: the first whole-hour boundary
strictly after the current hour began (`hours + 1`, minutes/seconds zeroed). -/
def getNextHour (now : Int) : Int :=
  floorHour now + hourMs

/-- The wallet state of one user: the eagerly maintained
`users.wallet_balance` column (cents) together with that user's rows of the
`wallet_transactions` table (signed amounts in cents).  `WalletContext.tsx`
reads and writes only the balance; no code path appends a transaction row. -/
structure Wallet where
  balance : Int
  transactions : List Int
deriving DecidableEq, Repr

/-- `deductFunds(amount, description)` from `WalletContext.tsx`: rejects a
non-positive amount, rejects (leaving the balance unchanged) when
`balance < amount`, and otherwise persists `balance - amount`.  No
transaction row is appended. -/
def deductFunds (w : Wallet) (amount : Int) : Wallet × Bool :=
  if amount ≤ 0 then (w, false)
  else if w.balance < amount then (w, false)
  else ({ w with balance := w.balance - amount }, true)

/-- `addFunds(amount)` from `WalletContext.tsx`: rejects a non-positive
amount, otherwise persists `balance + amount`.  No transaction row is
appended. -/
def addFunds (w : Wallet) (amount : Int) : Wallet × Bool :=
  if amount ≤ 0 then (w, false)
  else ({ w with balance := w.balance + amount }, true)

/-- The distinct failure alerts of the booking flow's wallet path in
`processPayment`. -/
inductive PaymentError where
  | startInPast        -- 'Please select a future start time'
  | endNotAfterStart   -- 'End time must be after start time'
  | durationTooShort   -- 'Minimum booking duration is 1 hour'
  | insufficientBalance
deriving DecidableEq, Repr

/-- The time-window validation at the top of `processPayment`:
`startDate < roundedNow`, `endDate <= startDate`, and
`endDate < startDate + 1 hour` each abort with an alert, in that order. -/
def validateWindow (now startDate endDate : Int) : Option PaymentError :=
  if startDate < floorHour now then some .startInPast
  else if endDate ≤ startDate then some .endNotAfterStart
  else if endDate < startDate + hourMs then some .durationTooShort
  else none

/-- The wallet path of `processPayment` from the map screen: validate the
window, pay `calculatePrice` from the wallet (the source checks
`walletBalance >= bookingAmount` and then calls `deductFunds`, whose guards
repeat that check), and on success insert a `bookings` row with status
`'confirmed'`.  No availability check is performed anywhere on this path. -/
def processPayment (bookings : List Booking) (balance : Int) (now : Int)
    (userId spotId newId : Nat) (startDate endDate : Int) :
    List Booking × Int × Option PaymentError :=
  match validateWindow now startDate endDate with
  | some err => (bookings, balance, some err)
  | none =>
    let bookingAmount := calculatePrice startDate endDate
    if balance < bookingAmount then
      (bookings, balance, some .insufficientBalance)
    else
      ({ id := newId, userId := userId, spotId := spotId,
         startTime := startDate, endTime := endDate,
         status := .confirmed } :: bookings,
       balance - bookingAmount, none)

/-- Why a cancellation request is refused. -/
inductive CancelError where
  | notConfirmed   -- the cancel button is rendered only for status 'confirmed'
  | windowClosed   -- 'Cannot Cancel': already started, or under 2 hours of notice
deriving DecidableEq, Repr

/-- `cancelBooking(bookingId)` from the bookings screen, combined with the
render condition `booking.status === 'confirmed'` that gates the cancel
button: refuse unless the status is `confirmed`; refuse when
`hoursUntilStart = (start - now) / 3600000 < 2`; otherwise update the row's
status to `'canceled'`. -/
def cancelBooking (b : Booking) (now : Int) : Booking × Option CancelError :=
  if b.status ≠ .confirmed then (b, some .notConfirmed)
  else if b.startTime - now < 2 * hourMs then (b, some .windowClosed)
  else ({ b with status := .canceled }, none)

/-- `canCancelBooking(booking)` from the bookings screen: status is
`confirmed`, the start is in the future, and there are at least 2 hours of
notice. -/
def canCancelBooking (b : Booking) (now : Int) : Bool :=
  b.status == .confirmed && decide (now < b.startTime) &&
    decide (2 * hourMs ≤ b.startTime - now)

/-- The `EXISTS` subquery of `update_spot_availability`: some booking for the
spot with status in `{pending, confirmed}` has `start_time <= now()` and
`end_time > now()`. -/
def hasActiveCovering (bookings : List Booking) (spotId : Nat) (now : Int) : Bool :=
  bookings.any fun b =>
    b.spotId == spotId && isActiveStatus b.status &&
      decide (b.startTime ≤ now) && decide (b.endTime > now)

/-- The `parking_spots` and `bookings` tables as seen by the availability
trigger: each spot is `(id, is_available)`. -/
structure ParkState where
  bookings : List Booking
  spots : List (Nat × Bool)
deriving DecidableEq, Repr

/-- The `UPDATE parking_spots SET is_available = NOT EXISTS (...) WHERE id =
COALESCE(NEW.spot_id, OLD.spot_id)` body of `update_spot_availability`:
only the one spot named by the changed row is recomputed. -/
def update_spot_availability (spots : List (Nat × Bool)) (bookings : List Booking)
    (spotId : Nat) (now : Int) : List (Nat × Bool) :=
  spots.map fun p =>
    if p.1 == spotId then (p.1, ! hasActiveCovering bookings spotId now) else p

/-- A row-level change on the `bookings` table, the events the
`update_spot_availability_trigger` fires on. -/
inductive BookingChange where
  | insertRow (b : Booking)
  | updateStatus (id : Nat) (s : BookingStatus)
  | deleteRow (id : Nat)
deriving DecidableEq, Repr

/-- The effect of a row-level change on the `bookings` table itself. -/
def applyToBookings (bookings : List Booking) : BookingChange → List Booking
  | .insertRow b => b :: bookings
  | .updateStatus id s =>
      bookings.map fun b => if b.id == id then { b with status := s } else b
  | .deleteRow id => bookings.filter fun b => b.id != id

/-- `COALESCE(NEW.spot_id, OLD.spot_id)`: the spot of the inserted row, or
the spot of the existing row an update/delete matched (`none` when no row
matched, in which case no per-row trigger fires). -/
def affectedSpot (bookings : List Booking) : BookingChange → Option Nat
  | .insertRow b => some b.spotId
  | .updateStatus id _ => (bookings.find? fun b => b.id == id).map Booking.spotId
  | .deleteRow id => (bookings.find? fun b => b.id == id).map Booking.spotId

/-- One booking-table change followed by the `AFTER INSERT OR UPDATE OR
DELETE` trigger `update_spot_availability`, evaluated at time `now`. -/
def applyBookingChange (st : ParkState) (c : BookingChange) (now : Int) : ParkState :=
  match affectedSpot st.bookings c with
  | none => { bookings := applyToBookings st.bookings c, spots := st.spots }
  | some sid =>
      { bookings := applyToBookings st.bookings c,
        spots := update_spot_availability st.spots (applyToBookings st.bookings c) sid now }

/-- The claimed derived-availability invariant: every spot's `is_available`
flag agrees with "no pending/confirmed booking covers `now`". -/
def flagsMatchBookings (st : ParkState) (now : Int) : Bool :=
  st.spots.all fun p => p.2 == ! hasActiveCovering st.bookings p.1 now

/-- A saved-card record as built by `savePaymentDetails` on the map screen
and stored in `SecureStore` under `saved_cards_<user>`: alongside the masked
metadata it carries the raw `number` field (`number: cardNumber`).  The CVV
is not part of the record ('Don't save CVV for security reasons'). -/
structure SavedCard where
  id : Nat
  number : String
  last4 : String
  brand : String
  expiryDate : String
  cardHolderName : String
deriving DecidableEq, Repr

/-- The `newCard` object literal of `savePaymentDetails`: the full card
number, its last 4 characters (`cardNumber.slice(-4)`), the hard-coded brand
`'visa'`, the expiry and the holder name (the legacy duplicate fields
`expiry`/`name` carry the same values and are omitted here). -/
def mkNewCard (id : Nat) (cardNumber expiryDate cardHolderName : String) : SavedCard :=
  { id := id, number := cardNumber, last4 := cardNumber.takeRight 4,
    brand := "visa", expiryDate := expiryDate, cardHolderName := cardHolderName }

/-- The duplicate check of `savePaymentDetails`: some existing card matches
the new one on both `last4` and `expiryDate`. -/
def cardExists (cards : List SavedCard) (newCard : SavedCard) : Bool :=
  cards.any fun card =>
    card.last4 == newCard.last4 && card.expiryDate == newCard.expiryDate

/-- `savePaymentDetails` from the map screen, acting on the stored list: if a
card with the same `last4` and `expiryDate` exists the list is unchanged;
otherwise the new card is `unshift`ed to the front and the list is cut back
to its first 5 entries. -/
def savePaymentDetails (cards : List SavedCard) (newCard : SavedCard) : List SavedCard :=
  if cardExists cards newCard then cards
  else (newCard :: cards).take 5

/-- The deduplication key of `savePaymentDetails`: `(last4, expiryDate)`. -/
def cardKey (c : SavedCard) : String × String :=
  (c.last4, c.expiryDate)

/-- `getCardBrand(number)` from the top-up screen: branch on the first digit
(the source first strips spaces; inputs here are already space-free). -/
def getCardBrand (number : String) : String :=
  match number.data.head? with
  | some '4' => "Visa"
  | some '5' => "Mastercard"
  | some '3' => "Amex"
  | _ => "Card"

/-- A row of the server-side `saved_cards` table as inserted by `saveCard` on
the top-up screen: user id plus masked metadata only (`last4`, `brand`,
`expiry_date`, `cardholder_name`). -/
structure SavedCardRow where
  userId : Nat
  last4 : String
  brand : String
  expiryDate : String
  cardholderName : String
deriving DecidableEq, Repr

/-- The `saved_cards` insert payload built by `saveCard` on the top-up
screen. -/
def saveCardRow (userId : Nat) (cardNumber expiryDate cardHolderName : String) :
    SavedCardRow :=
  { userId := userId, last4 := cardNumber.takeRight 4,
    brand := getCardBrand cardNumber, expiryDate := expiryDate,
    cardholderName := cardHolderName }

/-- Two bookings conflict when they are on the same spot, both non-terminal,
and their half-open windows overlap (`b1.start < b2.end AND b2.start <
b1.end`). -/
def conflicts (b1 b2 : Booking) : Bool :=
  b1.spotId == b2.spotId && isActiveStatus b1.status && isActiveStatus b2.status &&
    decide (b1.startTime < b2.endTime) && decide (b2.startTime < b1.endTime)

/-- The specification's no-double-booking invariant, decidably: no two
distinct bookings of the list conflict. -/
def noDoubleBooking : List Booking → Bool
  | [] => true
  | b :: rest => rest.all (fun b2 => ! conflicts b b2) && noDoubleBooking rest

end SmartParking

namespace SmartParking

/-! ## Helper lemmas -/

/-- For well-formed intervals, the SQL three-disjunct overlap test agrees
with the specification's standard half-open overlap test. -/
theorem sqlOverlaps_iff_specOverlap (b : Booking) (s e : Int)
    (hq : s < e) (hb : b.startTime < b.endTime) :
    sqlOverlaps b s e = true ↔ specOverlap b s e := by
  simp only [sqlOverlaps, specOverlap, Bool.or_eq_true, Bool.and_eq_true,
    decide_eq_true_eq]
  omega

/-- `ceilDiv` by an hour is the mathematical ceiling of the exact rational
quotient, i.e. exactly JavaScript's `Math.ceil((end - start) / 3600000)`. -/
theorem ceilDiv_hourMs_eq_ceil (a : Int) :
    ceilDiv a hourMs = ⌈(a : ℚ) / (hourMs : ℚ)⌉ := by
  have key : ⌊((-a : Int) : ℚ) / ((3600000 : ℕ) : ℚ)⌋ = (-a) / ((3600000 : ℕ) : ℤ) :=
    Rat.floor_intCast_div_natCast (-a) 3600000
  have h2 : -((a : ℚ) / (hourMs : ℚ)) = ((-a : Int) : ℚ) / ((3600000 : ℕ) : ℚ) := by
    rw [hourMs]
    push_cast
    ring
  have h1 : ⌈(a : ℚ) / (hourMs : ℚ)⌉ = -⌊-((a : ℚ) / (hourMs : ℚ))⌋ := by
    rw [Int.floor_neg, neg_neg]
  rw [h1, h2, key]
  rfl

/-- A single `deductFunds` keeps a non-negative balance non-negative. -/
theorem deductFunds_balance_nonneg (w : Wallet) (a : Int) (h : 0 ≤ w.balance) :
    0 ≤ ((deductFunds w a).1).balance := by
  unfold deductFunds
  split_ifs <;> simp_all

/-- Any sequence of `deductFunds` calls keeps a non-negative balance
non-negative. -/
theorem foldl_deductFunds_nonneg (amounts : List Int) (w : Wallet)
    (h : 0 ≤ w.balance) :
    0 ≤ (amounts.foldl (fun st a => (deductFunds st a).1) w).balance := by
  induction amounts generalizing w with
  | nil => simpa using h
  | cons a rest ih => exact ih _ (deductFunds_balance_nonneg w a h)

/-! ## C1 — no-double-booking invariant vs `processPayment` -/

/-- C1: the claim fails on the code, which contradicts its own schema (the
migration defines `check_spot_availability` precisely to prevent overlapping
bookings, but `processPayment` never consults it).  Starting from an empty
bookings table with a $100.00 wallet, booking spot 7 for 14:00–15:00 and
then again for 14:30–15:30 both succeed: the second call returns no error
even though `check_spot_availability` on the existing table answers `false`
(unavailable) for the requested window, and the resulting table violates the
no-double-booking invariant. -/
theorem c1_processPayment_inserts_overlapping_booking :
    (processPayment [] 10000 0 2 7 1 (14 * hourMs) (15 * hourMs)).2.2 = none ∧
    ((processPayment [] 10000 0 2 7 1 (14 * hourMs) (15 * hourMs)).1 =
      [⟨1, 2, 7, 14 * hourMs, 15 * hourMs, .confirmed⟩]) ∧
    check_spot_availability
      (processPayment [] 10000 0 2 7 1 (14 * hourMs) (15 * hourMs)).1 7
      (14 * hourMs + 1800000) (15 * hourMs + 1800000) = false ∧
    (processPayment
      (processPayment [] 10000 0 2 7 1 (14 * hourMs) (15 * hourMs)).1
      (processPayment [] 10000 0 2 7 1 (14 * hourMs) (15 * hourMs)).2.1
      0 3 7 2 (14 * hourMs + 1800000) (15 * hourMs + 1800000)).2.2 = none ∧
    noDoubleBooking
      (processPayment
        (processPayment [] 10000 0 2 7 1 (14 * hourMs) (15 * hourMs)).1
        (processPayment [] 10000 0 2 7 1 (14 * hourMs) (15 * hourMs)).2.1
        0 3 7 2 (14 * hourMs + 1800000) (15 * hourMs + 1800000)).1 = false := by
  decide

/-! ## C2 — `check_spot_availability` decides exactly standard overlap -/

/-- C2: for a well-formed query window and well-formed stored bookings,
`check_spot_availability` answers `false` exactly when some pending or
confirmed booking for the spot overlaps the window in the standard half-open
sense (`existing.start < end AND existing.end > start`). -/
theorem c2_check_spot_availability_iff_overlap
    (bookings : List Booking) (spotId : Nat) (s e : Int)
    (hq : s < e)
    (hb : bookings.all (fun b => decide (b.startTime < b.endTime)) = true) :
    check_spot_availability bookings spotId s e = false ↔
      ∃ b ∈ bookings, b.spotId = spotId ∧ isActiveStatus b.status = true ∧
        b.startTime < e ∧ b.endTime > s := by
  rw [List.all_eq_true] at hb
  simp only [check_spot_availability, Bool.not_eq_false', List.any_eq_true,
    Bool.and_eq_true, beq_iff_eq]
  constructor
  · rintro ⟨b, hmem, ⟨hspot, hact⟩, hov⟩
    have hwf : b.startTime < b.endTime := by
      simpa using hb b hmem
    have := (sqlOverlaps_iff_specOverlap b s e hq hwf).1 hov
    exact ⟨b, hmem, hspot, hact, this.1, this.2⟩
  · rintro ⟨b, hmem, hspot, hact, hov1, hov2⟩
    have hwf : b.startTime < b.endTime := by
      simpa using hb b hmem
    exact ⟨b, hmem, ⟨hspot, hact⟩,
      (sqlOverlaps_iff_specOverlap b s e hq hwf).2 ⟨hov1, hov2⟩⟩

/-- C2 witness: spot 7 holds a confirmed 14:00–15:00 booking; a 14:30–15:30
request is reported unavailable (the instantiated equivalence, with both
hypotheses discharged), while a 15:00–16:00 request, whose window only
touches the booking's end, is reported available. -/
theorem c2_check_spot_availability_witness :
    ((14 * hourMs + 1800000 < 15 * hourMs + 1800000) ∧
      ([(⟨1, 2, 7, 14 * hourMs, 15 * hourMs, .confirmed⟩ : Booking)].all
        (fun b => decide (b.startTime < b.endTime)) = true)) ∧
    (check_spot_availability [⟨1, 2, 7, 14 * hourMs, 15 * hourMs, .confirmed⟩] 7
        (14 * hourMs + 1800000) (15 * hourMs + 1800000) = false ↔
      ∃ b ∈ [(⟨1, 2, 7, 14 * hourMs, 15 * hourMs, .confirmed⟩ : Booking)],
        b.spotId = 7 ∧ isActiveStatus b.status = true ∧
          b.startTime < 15 * hourMs + 1800000 ∧ b.endTime > 14 * hourMs + 1800000) ∧
    check_spot_availability [⟨1, 2, 7, 14 * hourMs, 15 * hourMs, .confirmed⟩] 7
      (15 * hourMs) (16 * hourMs) = true :=
  ⟨⟨by decide, by decide⟩,
    c2_check_spot_availability_iff_overlap
      [⟨1, 2, 7, 14 * hourMs, 15 * hourMs, .confirmed⟩] 7
      (14 * hourMs + 1800000) (15 * hourMs + 1800000) (by decide) (by decide),
    by decide⟩

/-! ## C3 — `deductFunds` and the non-negative balance -/

/-- C3: for a positive amount, `deductFunds` fails exactly when the amount
exceeds the current balance, a failed debit leaves the wallet unchanged, a
successful debit decreases the balance by exactly the amount, and no
sequence of debits drives a non-negative balance below zero. -/
theorem c3_deductFunds_insufficient_funds_spec (w : Wallet) (amount : Int)
    (hpos : 0 < amount) :
    ((deductFunds w amount).2 = false ↔ w.balance < amount)
    ∧ ((deductFunds w amount).2 = false → (deductFunds w amount).1 = w)
    ∧ ((deductFunds w amount).2 = true →
        (deductFunds w amount).1.balance = w.balance - amount)
    ∧ (0 ≤ w.balance →
        ∀ amounts : List Int,
          0 ≤ (amounts.foldl (fun st a => (deductFunds st a).1) w).balance) := by
  refine ⟨?_, ?_, ?_, fun h amounts => foldl_deductFunds_nonneg amounts w h⟩ <;>
    (unfold deductFunds; split_ifs <;> simp_all <;> omega)

/-- C3 witness: scenario 2 of the specification, a $0.50 wallet debited $1 —
the instantiated conclusion, with the positivity hypothesis discharged. -/
theorem c3_deductFunds_witness :
    (0 : Int) < 100 ∧
    (((deductFunds ⟨50, []⟩ 100).2 = false ↔ (Wallet.mk 50 []).balance < 100)
      ∧ ((deductFunds ⟨50, []⟩ 100).2 = false →
          (deductFunds ⟨50, []⟩ 100).1 = ⟨50, []⟩)
      ∧ ((deductFunds ⟨50, []⟩ 100).2 = true →
          (deductFunds ⟨50, []⟩ 100).1.balance = (Wallet.mk 50 []).balance - 100)
      ∧ (0 ≤ (Wallet.mk 50 []).balance →
          ∀ amounts : List Int,
            0 ≤ (amounts.foldl (fun st a => (deductFunds st a).1) ⟨50, []⟩).balance)) :=
  ⟨by decide, c3_deductFunds_insufficient_funds_spec ⟨50, []⟩ 100 (by decide)⟩

/-! ## C4 — balance vs transaction history -/

/-- C4: the claim is right and the code is wrong.  `WalletContext.tsx`
advertises transaction logging and the schema creates a `wallet_transactions`
table, but neither `addFunds` nor `deductFunds` appends any transaction row:
starting from a fresh wallet (balance `0`, no transactions, where the
balance-conservation invariant holds), topping up $50.00 and paying $2.00
both succeed, yet the history is still empty, so the final balance $48.00 is
not the sum of the recorded transaction amounts ($0). -/
theorem c4_balance_not_sum_of_transactions :
    (Wallet.mk 0 []).balance = (Wallet.mk 0 []).transactions.sum ∧
    (addFunds ⟨0, []⟩ 5000).2 = true ∧
    (deductFunds (addFunds ⟨0, []⟩ 5000).1 200).2 = true ∧
    (deductFunds (addFunds ⟨0, []⟩ 5000).1 200).1.balance = 4800 ∧
    (deductFunds (addFunds ⟨0, []⟩ 5000).1 200).1.transactions = [] ∧
    ¬ ((deductFunds (addFunds ⟨0, []⟩ 5000).1 200).1.balance =
        (deductFunds (addFunds ⟨0, []⟩ 5000).1 200).1.transactions.sum) := by
  decide

/-! ## C5 — the pricing formula -/

/-- C5: the charged price is `ceil(hoursBetween(start, end)) * hourlyRate`
with an hourly rate of $1 (here in cents, so `* basePrice * 100`); a 2-hour
window costs exactly $2.00, and paying it from a $50.00 wallet succeeds and
leaves exactly $48.00. -/
theorem c5_price_is_ceil_hours_times_rate (w : Wallet) (startDate endDate : Int)
    (hdur : endDate = startDate + 2 * hourMs) (hw : w.balance = 5000) :
    (∀ s e : Int,
      calculatePrice s e = ⌈((e - s : Int) : ℚ) / (hourMs : ℚ)⌉ * basePrice * 100)
    ∧ calculatePrice startDate endDate = 200
    ∧ (deductFunds w (calculatePrice startDate endDate)).2 = true
    ∧ (deductFunds w (calculatePrice startDate endDate)).1.balance = 4800 := by
  have hgen : ∀ s e : Int,
      calculatePrice s e = ⌈((e - s : Int) : ℚ) / (hourMs : ℚ)⌉ * basePrice * 100 := by
    intro s e
    rw [calculatePrice, ceilDiv_hourMs_eq_ceil]
  have hp : calculatePrice startDate endDate = 200 := by
    subst hdur
    have harg : startDate + 2 * hourMs - startDate = 2 * hourMs := by ring
    rw [calculatePrice, harg]
    decide
  refine ⟨hgen, hp, ?_, ?_⟩
  · rw [hp]
    simp [deductFunds, hw]
  · rw [hp]
    simp [deductFunds, hw]

/-- C5 witness: the 2-hour window `[0, 7200000)` priced against a $50.00
wallet — the instantiated conclusion, with both hypotheses discharged. -/
theorem c5_price_witness :
    ((7200000 : Int) = 0 + 2 * hourMs ∧ (Wallet.mk 5000 []).balance = 5000) ∧
    ((∀ s e : Int,
        calculatePrice s e = ⌈((e - s : Int) : ℚ) / (hourMs : ℚ)⌉ * basePrice * 100)
      ∧ calculatePrice 0 7200000 = 200
      ∧ (deductFunds ⟨5000, []⟩ (calculatePrice 0 7200000)).2 = true
      ∧ (deductFunds ⟨5000, []⟩ (calculatePrice 0 7200000)).1.balance = 4800) :=
  ⟨⟨by decide, by decide⟩,
    c5_price_is_ceil_hours_times_rate ⟨5000, []⟩ 0 7200000 (by decide) (by decide)⟩

/-! ## C6 — window validation -/

/-- C6 counterexample: the claim says a request passing validation satisfies
`start ≥ nextWholeHourFrom(now)`, but `processPayment` compares the start
against `roundedNow`, the *current* hour truncated down.  At `now` = 10:30
(37800000 ms) the window 10:00–11:30 (36000000–41400000) passes validation
even though its start lies before the next whole-hour boundary 11:00. -/
theorem c6_validateWindow_counterexample :
    ¬ (validateWindow 37800000 36000000 41400000 = none →
        getNextHour 37800000 ≤ 36000000) := by
  decide

/-- C6 as amended: validation passes exactly when `end > start`,
`end - start ≥ 1 hour`, and `start` is not before the *current* whole-hour
boundary (`floorHour now`, the source's `roundedNow`) — not the next one;
and whenever validation fails, `processPayment` returns that error with the
bookings table and the balance untouched, so no payment is attempted and no
booking is created. -/
theorem c6_validateWindow_floor_hour_spec (db : List Booking) (balance : Int)
    (now : Int) (userId spotId newId : Nat) (startDate endDate : Int) :
    (validateWindow now startDate endDate = none ↔
      (startDate < endDate ∧ startDate + hourMs ≤ endDate ∧ floorHour now ≤ startDate))
    ∧ (validateWindow now startDate endDate ≠ none →
        processPayment db balance now userId spotId newId startDate endDate =
          (db, balance, validateWindow now startDate endDate)) := by
  constructor
  · unfold validateWindow
    split_ifs <;> simp_all
  · intro h
    cases hv : validateWindow now startDate endDate with
    | none => exact absurd hv h
    | some err => simp [processPayment, hv]

/-- C6 witness: the amended statement instantiated at `now` = 0 for the
window `[0, hourMs)`. -/
theorem c6_validateWindow_floor_hour_witness :
    (validateWindow 0 0 hourMs = none ↔
      ((0 : Int) < hourMs ∧ 0 + hourMs ≤ hourMs ∧ floorHour 0 ≤ 0))
    ∧ (validateWindow 0 0 hourMs ≠ none →
        processPayment [] 0 0 0 0 0 0 hourMs = ([], 0, validateWindow 0 0 hourMs)) :=
  c6_validateWindow_floor_hour_spec [] 0 0 0 0 0 0 hourMs

/-! ## C7 — the two-hour cancellation policy -/

/-- C7: cancellation succeeds exactly when the booking is `confirmed` and
there are at least 2 hours until its start; success sets the status to
`canceled` and failure leaves the booking unchanged; and the screen's
eligibility check `canCancelBooking` agrees exactly with the operation. -/
theorem c7_cancelBooking_two_hour_policy (b : Booking) (now : Int) :
    ((cancelBooking b now).2 = none ↔
      (b.status = .confirmed ∧ 2 * hourMs ≤ b.startTime - now))
    ∧ ((cancelBooking b now).2 = none →
        (cancelBooking b now).1 = { b with status := .canceled })
    ∧ ((cancelBooking b now).2 ≠ none → (cancelBooking b now).1 = b)
    ∧ (canCancelBooking b now = true ↔ (cancelBooking b now).2 = none) := by
  unfold cancelBooking canCancelBooking
  split_ifs with h1 h2 <;> simp_all [hourMs]
  omega

/-- C7 witness: a confirmed booking starting at 10:00 (36000000 ms): the
policy instantiated at a call made at 08:00 (exactly 2 hours of notice,
allowed), together with direct evaluations at 08:01 (1h59m of notice,
refused), at 10:00:00.001 (already started, refused), and for a terminal
(canceled) booking (refused). -/
theorem c7_cancelBooking_witness :
    (((cancelBooking ⟨1, 2, 7, 36000000, 39600000, .confirmed⟩ 28800000).2 = none ↔
        ((Booking.mk 1 2 7 36000000 39600000 .confirmed).status = .confirmed ∧
          2 * hourMs ≤ (Booking.mk 1 2 7 36000000 39600000 .confirmed).startTime - 28800000))
      ∧ ((cancelBooking ⟨1, 2, 7, 36000000, 39600000, .confirmed⟩ 28800000).2 = none →
          (cancelBooking ⟨1, 2, 7, 36000000, 39600000, .confirmed⟩ 28800000).1 =
            { (Booking.mk 1 2 7 36000000 39600000 .confirmed) with status := .canceled })
      ∧ ((cancelBooking ⟨1, 2, 7, 36000000, 39600000, .confirmed⟩ 28800000).2 ≠ none →
          (cancelBooking ⟨1, 2, 7, 36000000, 39600000, .confirmed⟩ 28800000).1 =
            ⟨1, 2, 7, 36000000, 39600000, .confirmed⟩)
      ∧ (canCancelBooking ⟨1, 2, 7, 36000000, 39600000, .confirmed⟩ 28800000 = true ↔
          (cancelBooking ⟨1, 2, 7, 36000000, 39600000, .confirmed⟩ 28800000).2 = none))
    ∧ (cancelBooking ⟨1, 2, 7, 36000000, 39600000, .confirmed⟩ 28860000).2 =
        some .windowClosed
    ∧ (cancelBooking ⟨1, 2, 7, 36000000, 39600000, .confirmed⟩ 36000001).2 =
        some .windowClosed
    ∧ (cancelBooking ⟨1, 2, 7, 36000000, 39600000, .canceled⟩ 0).2 =
        some .notConfirmed :=
  ⟨c7_cancelBooking_two_hour_policy ⟨1, 2, 7, 36000000, 39600000, .confirmed⟩ 28800000,
    by decide, by decide, by decide⟩

/-! ## C8 — the derived availability flag -/

/-- The `UPDATE` of `update_spot_availability` recomputes exactly the flag of
the named spot from the booking table at the evaluation instant and leaves
every other spot's row untouched. -/
theorem update_spot_availability_spec (spots : List (Nat × Bool))
    (bookings : List Booking) (sid : Nat) (now : Int) :
    ∀ p ∈ update_spot_availability spots bookings sid now,
      (p.1 = sid → p.2 = ! hasActiveCovering bookings sid now)
      ∧ (p.1 ≠ sid → p ∈ spots) := by
  intro p hp
  simp only [update_spot_availability, List.mem_map] at hp
  obtain ⟨q, hq, rfl⟩ := hp
  by_cases hqs : q.1 = sid
  · simp [hqs, hq]
  · simp [hqs, hq]

/-- C8 counterexample: availability is not recomputed for every spot after
every booking-state change.  Starting from two free spots, a confirmed
11:00–12:00 booking on spot 2 is inserted at 10:00 (its trigger correctly
leaves spot 2 available, since nothing covers 10:00); then at 11:30 a
confirmed 12:00–13:00 booking on spot 1 is inserted.  That change's trigger
only touches spot 1, so after the change spot 2 is still flagged available
even though its booking covers 11:30 — the claimed "for every spot"
biconditional fails on the resulting state. -/
theorem c8_stale_flag_counterexample :
    flagsMatchBookings
      (applyBookingChange ⟨[], [(1, true), (2, true)]⟩
        (.insertRow ⟨1, 4, 2, 11 * hourMs, 12 * hourMs, .confirmed⟩) (10 * hourMs))
      (10 * hourMs) = true ∧
    flagsMatchBookings
      (applyBookingChange
        (applyBookingChange ⟨[], [(1, true), (2, true)]⟩
          (.insertRow ⟨1, 4, 2, 11 * hourMs, 12 * hourMs, .confirmed⟩) (10 * hourMs))
        (.insertRow ⟨2, 5, 1, 12 * hourMs, 13 * hourMs, .confirmed⟩)
        (11 * hourMs + 1800000))
      (11 * hourMs + 1800000) = false := by
  decide

/-- C8 as amended: after a booking-table change (insert, update or delete)
the trigger recomputes the flag of the *changed row's* spot, which then
equals "no pending/confirmed booking for that spot covers the instant of the
change"; the flags of all other spots are left exactly as they were (and may
therefore go stale as time passes). -/
theorem c8_trigger_updates_changed_spot (st : ParkState) (c : BookingChange)
    (now : Int) (sid : Nat) (h : affectedSpot st.bookings c = some sid) :
    ∀ p ∈ (applyBookingChange st c now).spots,
      (p.1 = sid →
        p.2 = ! hasActiveCovering (applyBookingChange st c now).bookings sid now)
      ∧ (p.1 ≠ sid → p ∈ st.spots) := by
  unfold applyBookingChange
  rw [h]
  exact update_spot_availability_spec st.spots (applyToBookings st.bookings c) sid now

/-- C8 witness: the amended statement instantiated at the insertion of a
confirmed 11:00–12:00 booking on spot 2 at 10:00, over the two-spot state,
with the affected-spot hypothesis discharged. -/
theorem c8_trigger_witness :
    affectedSpot (ParkState.mk [] [(1, true), (2, true)]).bookings
      (.insertRow ⟨1, 4, 2, 11 * hourMs, 12 * hourMs, .confirmed⟩) = some 2 ∧
    ∀ p ∈ (applyBookingChange ⟨[], [(1, true), (2, true)]⟩
        (.insertRow ⟨1, 4, 2, 11 * hourMs, 12 * hourMs, .confirmed⟩)
        (10 * hourMs)).spots,
      (p.1 = 2 →
        p.2 = ! hasActiveCovering
          (applyBookingChange ⟨[], [(1, true), (2, true)]⟩
            (.insertRow ⟨1, 4, 2, 11 * hourMs, 12 * hourMs, .confirmed⟩)
            (10 * hourMs)).bookings 2 (10 * hourMs))
      ∧ (p.1 ≠ 2 → p ∈ (ParkState.mk [] [(1, true), (2, true)]).spots) :=
  ⟨by decide,
    c8_trigger_updates_changed_spot ⟨[], [(1, true), (2, true)]⟩
      (.insertRow ⟨1, 4, 2, 11 * hourMs, 12 * hourMs, .confirmed⟩)
      (10 * hourMs) 2 (by decide)⟩

/-! ## C9 — what the saved-card stores persist -/

/-- C9 counterexample: `savePaymentDetails` persists the full card number.
Saving a fresh card stores, in `SecureStore`, a record whose `number` field
is the complete 16-digit card number — not merely masked metadata. -/
theorem c9_savePaymentDetails_stores_full_number :
    savePaymentDetails [] (mkNewCard 1 "4242424242424242" "12/30" "Alice Smith") =
      [mkNewCard 1 "4242424242424242" "12/30" "Alice Smith"] ∧
    (mkNewCard 1 "4242424242424242" "12/30" "Alice Smith").number =
      "4242424242424242" ∧
    (mkNewCard 1 "4242424242424242" "12/30" "Alice Smith").number ≠
      (mkNewCard 1 "4242424242424242" "12/30" "Alice Smith").last4 := by
  decide

/-- C9 as amended: no save operation takes the CVV at all, and the
server-side `saved_cards` row really is masked metadata only — it cannot
distinguish two different card numbers that agree on brand prefix and last
four digits.  (The local `SecureStore` record written by
`savePaymentDetails`, by contrast, carries the full number.) -/
theorem c9_server_row_only_masked_metadata (userId : Nat)
    (n1 n2 expiry holder : String)
    (hbrand : getCardBrand n1 = getCardBrand n2)
    (hlast4 : n1.takeRight 4 = n2.takeRight 4) :
    saveCardRow userId n1 expiry holder = saveCardRow userId n2 expiry holder := by
  simp [saveCardRow, SavedCardRow.mk.injEq, hbrand, hlast4]

/-- C9 witness: two distinct full card numbers with the same brand prefix
and last four digits produce identical `saved_cards` rows. -/
theorem c9_server_row_witness :
    (getCardBrand "4242424242424242" = getCardBrand "4000000000004242" ∧
      "4242424242424242".takeRight 4 = "4000000000004242".takeRight 4 ∧
      "4242424242424242" ≠ "4000000000004242") ∧
    saveCardRow 9 "4242424242424242" "12/30" "Alice Smith" =
      saveCardRow 9 "4000000000004242" "12/30" "Alice Smith" :=
  ⟨⟨by decide, by decide, by decide⟩,
    c9_server_row_only_masked_metadata 9 "4242424242424242" "4000000000004242"
      "12/30" "Alice Smith" (by decide) (by decide)⟩

/-! ## C10 — the saved-card list is bounded and deduplicated -/

/-- `cardExists` answers `false` exactly when no stored card shares the
`(last4, expiryDate)` key with the new card. -/
theorem cardExists_eq_false_iff (cards : List SavedCard) (c : SavedCard) :
    cardExists cards c = false ↔ ∀ card ∈ cards, cardKey card ≠ cardKey c := by
  simp [cardExists, List.any_eq_false, cardKey, Prod.ext_iff, not_and]

/-- One `savePaymentDetails` call preserves the list invariant: at most 5
cards, and pairwise-distinct `(last4, expiryDate)` keys. -/
theorem savePaymentDetails_preserves_invariant (cards : List SavedCard)
    (c : SavedCard) (hlen : cards.length ≤ 5)
    (hnd : (cards.map cardKey).Nodup) :
    (savePaymentDetails cards c).length ≤ 5 ∧
      ((savePaymentDetails cards c).map cardKey).Nodup := by
  unfold savePaymentDetails
  split_ifs with hex
  · exact ⟨hlen, hnd⟩
  · refine ⟨?_, ?_⟩
    · rw [List.length_take]
      exact min_le_left _ _
    · have hkey : cardKey c ∉ cards.map cardKey := by
        intro hmem
        obtain ⟨card, hcard, hk⟩ := List.mem_map.1 hmem
        exact (cardExists_eq_false_iff cards c).1 (Bool.eq_false_iff.mpr hex) card hcard hk
      have hnd2 : ((c :: cards).map cardKey).Nodup := by
        simp only [List.map_cons, List.nodup_cons]
        exact ⟨hkey, hnd⟩
      exact List.Nodup.sublist ((List.take_sublist 5 (c :: cards)).map cardKey) hnd2

/-- Every list reachable by `savePaymentDetails` calls from the empty list
satisfies the invariant. -/
theorem foldl_savePaymentDetails_invariant (ops : List SavedCard)
    (acc : List SavedCard) (h : acc.length ≤ 5 ∧ (acc.map cardKey).Nodup) :
    (ops.foldl savePaymentDetails acc).length ≤ 5 ∧
      ((ops.foldl savePaymentDetails acc).map cardKey).Nodup := by
  induction ops generalizing acc with
  | nil => simpa using h
  | cons c rest ih =>
      exact ih _ (savePaymentDetails_preserves_invariant acc c h.1 h.2)

/-- C10: the stored card list never exceeds 5 entries and never holds two
cards with the same last-4 digits and expiry; a duplicate save leaves the
list unchanged; a genuinely new card goes to the front with entries beyond
the fifth dropped; and every list reachable from the empty list satisfies
the invariant. -/
theorem c10_savePaymentDetails_bounded_and_deduped (cards : List SavedCard)
    (newCard : SavedCard) (hlen : cards.length ≤ 5)
    (hnd : (cards.map cardKey).Nodup) :
    ((savePaymentDetails cards newCard).length ≤ 5 ∧
      ((savePaymentDetails cards newCard).map cardKey).Nodup)
    ∧ (cardExists cards newCard = true → savePaymentDetails cards newCard = cards)
    ∧ (cardExists cards newCard = false →
        savePaymentDetails cards newCard = (newCard :: cards).take 5)
    ∧ ∀ ops : List SavedCard,
        (ops.foldl savePaymentDetails []).length ≤ 5 ∧
          ((ops.foldl savePaymentDetails []).map cardKey).Nodup := by
  refine ⟨savePaymentDetails_preserves_invariant cards newCard hlen hnd, ?_, ?_,
    fun ops => foldl_savePaymentDetails_invariant ops [] (by simp)⟩
  · intro hex
    simp [savePaymentDetails, hex]
  · intro hex
    simp [savePaymentDetails, hex]

/-- C10 witness: the theorem instantiated at a two-card list and a new,
distinct card, with both invariant hypotheses discharged. -/
theorem c10_savePaymentDetails_witness :
    (([mkNewCard 1 "4242424242424242" "12/30" "Alice Smith",
        mkNewCard 2 "5500000000000004" "11/29" "Bob Jones"] : List SavedCard).length ≤ 5 ∧
      (([mkNewCard 1 "4242424242424242" "12/30" "Alice Smith",
        mkNewCard 2 "5500000000000004" "11/29" "Bob Jones"]).map cardKey).Nodup) ∧
    (((savePaymentDetails
        [mkNewCard 1 "4242424242424242" "12/30" "Alice Smith",
          mkNewCard 2 "5500000000000004" "11/29" "Bob Jones"]
        (mkNewCard 3 "340000000000009" "10/28" "Car Davis")).length ≤ 5 ∧
      ((savePaymentDetails
        [mkNewCard 1 "4242424242424242" "12/30" "Alice Smith",
          mkNewCard 2 "5500000000000004" "11/29" "Bob Jones"]
        (mkNewCard 3 "340000000000009" "10/28" "Car Davis")).map cardKey).Nodup)
    ∧ (cardExists
        [mkNewCard 1 "4242424242424242" "12/30" "Alice Smith",
          mkNewCard 2 "5500000000000004" "11/29" "Bob Jones"]
        (mkNewCard 3 "340000000000009" "10/28" "Car Davis") = true →
        savePaymentDetails
          [mkNewCard 1 "4242424242424242" "12/30" "Alice Smith",
            mkNewCard 2 "5500000000000004" "11/29" "Bob Jones"]
          (mkNewCard 3 "340000000000009" "10/28" "Car Davis") =
          [mkNewCard 1 "4242424242424242" "12/30" "Alice Smith",
            mkNewCard 2 "5500000000000004" "11/29" "Bob Jones"])
    ∧ (cardExists
        [mkNewCard 1 "4242424242424242" "12/30" "Alice Smith",
          mkNewCard 2 "5500000000000004" "11/29" "Bob Jones"]
        (mkNewCard 3 "340000000000009" "10/28" "Car Davis") = false →
        savePaymentDetails
          [mkNewCard 1 "4242424242424242" "12/30" "Alice Smith",
            mkNewCard 2 "5500000000000004" "11/29" "Bob Jones"]
          (mkNewCard 3 "340000000000009" "10/28" "Car Davis") =
          (mkNewCard 3 "340000000000009" "10/28" "Car Davis" ::
            [mkNewCard 1 "4242424242424242" "12/30" "Alice Smith",
              mkNewCard 2 "5500000000000004" "11/29" "Bob Jones"]).take 5)
    ∧ ∀ ops : List SavedCard,
        (ops.foldl savePaymentDetails []).length ≤ 5 ∧
          ((ops.foldl savePaymentDetails []).map cardKey).Nodup) :=
  ⟨⟨by decide, by decide⟩,
    c10_savePaymentDetails_bounded_and_deduped
      [mkNewCard 1 "4242424242424242" "12/30" "Alice Smith",
        mkNewCard 2 "5500000000000004" "11/29" "Bob Jones"]
      (mkNewCard 3 "340000000000009" "10/28" "Car Davis") (by decide) (by decide)⟩

end SmartParking
